import Mathlib

/-!
Verification of the fastapi-text-intelligence server (`src/app.py`).

The file shallow-embeds the stateful core of the server — the in-memory
nonce store, session issuance and verification, request validation and
option building — and proves the spec's claims about it.

Conventions of the embedding:
* Python `time.time()` values become `Nat` timestamps passed explicitly.
* The nonce dictionary `session_nonces` becomes an association list
  `NonceStore := List (String × Nat)` (nonce value ↦ expiry instant);
  insertion replaces any previous binding, as Python dict assignment does.
* PyJWT is a third-party collaborator; it is modelled symbolically:
  a token records its claims and the secret it was signed with, and
  `jwt_decode` succeeds exactly when the verifying secret matches and the
  token is unexpired (signature checked before expiry, as PyJWT does).
* Python truthiness of `Optional[str]` values (`None` and `""` falsy)
  is `pytruthy`.
-/

namespace App

/-- Constant `NONCE_TTL = 5 * 60` from `app.py`. -/
def NONCE_TTL : Nat := 5 * 60

/-- Constant `JWT_EXPIRY = 3600` from `app.py`. -/
def JWT_EXPIRY : Nat := 3600

/-- The in-memory nonce store `session_nonces`: nonce value ↦ expiry
timestamp.  Modelled as an association list with dict semantics. -/
abbrev NonceStore := List (String × Nat)

/-- Dictionary lookup: value of the first binding of `n`. -/
def store_lookup : NonceStore → String → Option Nat
  | [], _ => none
  | (k, v) :: rest, n => if k = n then some v else store_lookup rest n

/-- Dictionary deletion (`dict.pop`): removes every binding of `n`
(at most one exists in a store built by the operations below). -/
def store_erase : NonceStore → String → NonceStore
  | [], _ => []
  | (k, v) :: rest, n =>
      if k = n then store_erase rest n else (k, v) :: store_erase rest n

/-- Dictionary assignment `d[n] = v`: replaces any previous binding. -/
def store_insert (s : NonceStore) (n : String) (v : Nat) : NonceStore :=
  (n, v) :: store_erase s n

/-- Function `generate_nonce` (`app.py:53`): records the freshly generated nonce
with expiry `now + NONCE_TTL`.  The random `secrets.token_hex(16)` output
is the explicit argument `n`; the caller's clock is `now`. -/
def generate_nonce (s : NonceStore) (n : String) (now : Nat) : NonceStore :=
  store_insert s n (now + NONCE_TTL)

/-- Function `consume_nonce` (`app.py:60`): `session_nonces.pop(nonce, None)`;
`False` when absent, else `time.time() < expiry`.  Returns the boolean
result together with the updated store (the pop removes the entry even
when the nonce turns out to be expired). -/
def consume_nonce (s : NonceStore) (n : String) (now : Nat) : Bool × NonceStore :=
  match store_lookup s n with
  | none => (false, s)
  | some expiry => (decide (now < expiry), store_erase s n)

/-- Function `cleanup_nonces` (`app.py:68`): deletes every entry with
`now >= expiry`. -/
def cleanup_nonces : NonceStore → Nat → NonceStore
  | [], _ => []
  | (k, v) :: rest, now =>
      if now ≥ v then cleanup_nonces rest now
      else (k, v) :: cleanup_nonces rest now

/-- The store transformation performed by `GET /` (`serve_index`,
`app.py:225`): sweep expired nonces, then issue and embed a fresh nonce. -/
def serve_index (s : NonceStore) (fresh : String) (now : Nat) : NonceStore :=
  generate_nonce (cleanup_nonces s now) fresh now

/-! ### Operation sequences on the nonce store (for the single-use claim) -/

/-- One operation on the nonce store.  `issue n` stands for a
`generate_nonce` call whose random generator produced `n`. -/
inductive NonceOp
  | issue (n : String)
  | consume (n : String)
  | sweep
deriving DecidableEq

/-- Apply one timed operation (the `Nat` is the `time.time()` at the call). -/
def applyOp (s : NonceStore) : NonceOp × Nat → NonceStore
  | (NonceOp.issue n, t) => generate_nonce s n t
  | (NonceOp.consume n, t) => (consume_nonce s n t).2
  | (NonceOp.sweep, t) => cleanup_nonces s t

/-- Run a sequence of timed operations from a given store. -/
def runOps (s : NonceStore) : List (NonceOp × Nat) → NonceStore
  | [] => s
  | op :: rest => runOps (applyOp s op) rest

/-- The nonce values issued along a sequence of operations. -/
def issuedNonces (ops : List (NonceOp × Nat)) : List String :=
  ops.filterMap fun op =>
    match op.1 with
    | NonceOp.issue n => some n
    | _ => none

/-! ### Basic store lemmas -/

theorem store_lookup_erase (s : NonceStore) (m n : String) :
    store_lookup (store_erase s m) n =
      if n = m then none else store_lookup s n := by
  induction s with
  | nil => simp [store_erase, store_lookup]
  | cons kv rest ih =>
    obtain ⟨k, v⟩ := kv
    by_cases hkm : k = m
    · by_cases hnm : n = m
      · subst hnm
        simp [store_erase, store_lookup, hkm, ih]
      · have hkn : ¬ k = n := fun h => hnm (by rw [← h, hkm])
        have hmn : ¬ m = n := fun h => hnm h.symm
        simp [store_erase, store_lookup, hkm, hkn, hnm, hmn, ih]
    · by_cases hkn : k = n
      · have hnm : ¬ n = m := fun h => hkm (by rw [hkn, h])
        simp [store_erase, store_lookup, hkm, hkn, hnm]
      · simp [store_erase, store_lookup, hkm, hkn, ih]

theorem store_lookup_insert (s : NonceStore) (m n : String) (v : Nat) :
    store_lookup (store_insert s m v) n =
      if m = n then some v else store_lookup s n := by
  unfold store_insert
  by_cases h : m = n
  · simp [store_lookup, h]
  · have : ¬ n = m := fun hc => h hc.symm
    simp [store_lookup, h, store_lookup_erase, this]

theorem store_lookup_cleanup_ne_none (s : NonceStore) (now : Nat) (n : String) :
    store_lookup (cleanup_nonces s now) n ≠ none →
      store_lookup s n ≠ none := by
  induction s with
  | nil => simp [cleanup_nonces]
  | cons kv rest ih =>
    obtain ⟨k, v⟩ := kv
    by_cases hkn : k = n
    · simp [store_lookup, hkn]
    · intro h
      by_cases hv : now ≥ v
      · simp only [cleanup_nonces, if_pos hv] at h
        simp [store_lookup, hkn, ih h]
      · simp only [cleanup_nonces, if_neg hv, store_lookup, hkn] at h
        simp [store_lookup, hkn, ih h]

/-- After `consume_nonce s n now`, regardless of the result, `n` is no
longer in the store (when it was present it is popped; otherwise it was
already absent). -/
theorem store_lookup_after_consume (s : NonceStore) (n : String) (now : Nat) :
    store_lookup (consume_nonce s n now).2 n = none := by
  unfold consume_nonce
  cases h : store_lookup s n with
  | none => simp [h]
  | some e => simp [h, store_lookup_erase]

/-- A successful consume means the nonce was in the store. -/
theorem consume_true_mem (s : NonceStore) (n : String) (now : Nat) :
    (consume_nonce s n now).1 = true → store_lookup s n ≠ none := by
  unfold consume_nonce
  cases h : store_lookup s n <;> simp [h]

/-- A nonce absent from the store never consumes successfully. -/
theorem consume_absent_false (s : NonceStore) (n : String) (now : Nat)
    (h : store_lookup s n = none) : (consume_nonce s n now).1 = false := by
  unfold consume_nonce
  simp [h]

theorem store_lookup_cleanup_none (s : NonceStore) (now : Nat) (n : String)
    (h : store_lookup s n = none) :
    store_lookup (cleanup_nonces s now) n = none := by
  by_contra hne
  exact store_lookup_cleanup_ne_none s now n hne h

/-- Consuming one nonce does not touch the binding of another. -/
theorem store_lookup_consume_other (s : NonceStore) (m n : String) (t : Nat)
    (h : ¬ n = m) :
    store_lookup (consume_nonce s m t).2 n = store_lookup s n := by
  unfold consume_nonce
  cases hl : store_lookup s m <;> simp [hl, store_lookup_erase, h]

theorem runOps_append (s : NonceStore) (l1 l2 : List (NonceOp × Nat)) :
    runOps s (l1 ++ l2) = runOps (runOps s l1) l2 := by
  induction l1 generalizing s with
  | nil => rfl
  | cons op rest ih => simp [runOps, ih]

theorem issuedNonces_cons (o : NonceOp) (t : Nat) (rest : List (NonceOp × Nat)) :
    issuedNonces ((o, t) :: rest) =
      (match o with
       | NonceOp.issue m => [m]
       | _ => []) ++ issuedNonces rest := by
  unfold issuedNonces
  cases o <;> simp [List.filterMap_cons]

/-- A nonce absent at the start and never issued along a run stays absent. -/
theorem store_lookup_runOps_none (ops : List (NonceOp × Nat)) (s : NonceStore)
    (n : String) (hs : store_lookup s n = none) (hni : n ∉ issuedNonces ops) :
    store_lookup (runOps s ops) n = none := by
  induction ops generalizing s with
  | nil => simpa [runOps] using hs
  | cons op rest ih =>
    obtain ⟨o, t⟩ := op
    have hni' : n ∉ issuedNonces rest := by
      intro hmem; exact hni (by rw [issuedNonces_cons]; exact List.mem_append_right _ hmem)
    apply ih _ _ hni'
    cases o with
    | issue m =>
      have hmn : ¬ m = n := by
        intro h
        exact hni (by rw [issuedNonces_cons, h]; exact List.mem_append_left _ (by simp))
      simpa [applyOp, generate_nonce, store_lookup_insert, hmn] using hs
    | consume m =>
      by_cases hnm : n = m
      · subst hnm; exact store_lookup_after_consume s n t
      · rw [show applyOp s (NonceOp.consume m, t) = (consume_nonce s m t).2 from rfl,
          store_lookup_consume_other s m n t hnm]
        exact hs
    | sweep => exact store_lookup_cleanup_none s t n hs

/-- A nonce present after a run was present at the start or was issued
along the run. -/
theorem store_lookup_runOps_ne_none (ops : List (NonceOp × Nat)) (s : NonceStore)
    (n : String) (h : store_lookup (runOps s ops) n ≠ none) :
    store_lookup s n ≠ none ∨ n ∈ issuedNonces ops := by
  induction ops generalizing s with
  | nil => left; simpa [runOps] using h
  | cons op rest ih =>
    obtain ⟨o, t⟩ := op
    rcases ih (applyOp s (o, t)) h with hmem | hiss
    · cases o with
      | issue m =>
        by_cases hmn : m = n
        · right; rw [issuedNonces_cons, hmn]; exact List.mem_append_left _ (by simp)
        · left
          simpa [applyOp, generate_nonce, store_lookup_insert, hmn] using hmem
      | consume m =>
        by_cases hnm : n = m
        · exact absurd (by subst hnm; exact store_lookup_after_consume s n t) hmem
        · left
          rw [show applyOp s (NonceOp.consume m, t) = (consume_nonce s m t).2 from rfl,
            store_lookup_consume_other s m n t hnm] at hmem
          exact hmem
      | sweep =>
        left
        exact store_lookup_cleanup_ne_none s t n hmem
    · right
      rw [issuedNonces_cons]
      exact List.mem_append_right _ hiss

/-! ### Python truthiness and substring tests -/

/-- Python truthiness of an `Optional[str]`: `None` and `""` are falsy. -/
def pytruthy : Option String → Bool
  | none => false
  | some s => !s.data.isEmpty

/-- Does `sub` occur at the head of `s`?  (Helper for Python
`str.startswith` and the `in` operator.) -/
def matchesAt : List Char → List Char → Bool
  | [], _ => true
  | _ :: _, [] => false
  | c :: cs, d :: ds => c = d && matchesAt cs ds

/-- Does `sub` occur somewhere in `s`?  (The Python expression
`sub in s` on strings.) -/
def hasSub (s sub : List Char) : Bool :=
  if matchesAt sub s then true
  else
    match s with
    | [] => false
    | _ :: t => hasSub t sub

/-- Python `str.lower()` (character-wise lowering suffices for the ASCII
messages involved). -/
def strLower (s : String) : List Char := s.data.map Char.toLower

/-- Python `s.strip()` is falsy iff every character of `s` is
whitespace. -/
def strBlank (s : String) : Bool := s.data.all Char.isWhitespace

/-! ### Request validation (`validate_text_input`, `app.py:178`) -/

/-- The JSON body of `POST /api/text-intelligence` (`TextInput`,
`app.py:170`): both fields optional, defaulting to `None`. -/
structure TextInput where
  text : Option String
  url : Option String
deriving DecidableEq

/-- The normalized request dict returned by `validate_text_input`:
either `{"url": u}` or `{"text": t}`. -/
inductive ReqDict
  | url (u : String)
  | text (t : String)
deriving DecidableEq

/-- Function `validate_text_input` (`app.py:178`): returns the Python pair
`(request_dict, error_msg)`.  Conditions mirror the source: Python
truthiness for presence, `str.startswith(('http://', 'https://'))` for
the URL scheme, `str.strip()` for blank text. -/
def validate_text_input (body : TextInput) : Option ReqDict × Option String :=
  if !pytruthy body.text && !pytruthy body.url then
    (none, some "Request must contain either 'text' or 'url' field")
  else if pytruthy body.text && pytruthy body.url then
    (none, some "Request must contain either 'text' or 'url', not both")
  else if pytruthy body.url then
    let u := body.url.getD ""
    if matchesAt "http://".data u.data || matchesAt "https://".data u.data then
      (some (ReqDict.url u), none)
    else
      (none, some "Invalid URL format")
  else
    let t := body.text.getD ""
    if strBlank t then
      (none, some "Text content cannot be empty")
    else
      (some (ReqDict.text t), none)

/-- The validation-error classification in `analyze` (`app.py:287`):
`"INVALID_TEXT" if "text" in error_msg.lower() else "INVALID_URL"`. -/
def classify_validation_error (msg : String) : String :=
  if hasSub (strLower msg) "text".data then "INVALID_TEXT" else "INVALID_URL"

/-! ### Option building (`build_deepgram_options`, `app.py:195`) -/

/-- The value stored under the `"summarize"` key: Python `True` or the
string `"v2"`. -/
inductive SummarizeOpt
  | boolTrue
  | v2
deriving DecidableEq

/-- The options dict passed to the SDK: `language` always present, the
four feature keys present only when set. -/
structure DGOptions where
  language : String
  summarize : Option SummarizeOpt
  topics : Option Bool
  sentiment : Option Bool
  intents : Option Bool
deriving DecidableEq

/-- Function `build_deepgram_options` (`app.py:195`): returns the Python pair
`(options, error_msg)`.  `summarize == "v1"` aborts with the legacy
message before any feature flag is set; each boolean flag is inserted
only when its query value is the literal string `"true"`. -/
def build_deepgram_options (language : String)
    (summarize topics sentiment intents : Option String) :
    Option DGOptions × Option String :=
  let summOpt : Option SummarizeOpt :=
    if summarize = some "true" then some SummarizeOpt.boolTrue
    else if summarize = some "v2" then some SummarizeOpt.v2
    else none
  if summarize = some "v1" then
    (none, some "Summarization v1 is no longer supported. Please use v2 or true.")
  else
    (some ⟨language, summOpt,
      if topics = some "true" then some true else none,
      if sentiment = some "true" then some true else none,
      if intents = some "true" then some true else none⟩, none)

/-! ### JWT session tokens (PyJWT modelled symbolically) -/

/-- A signed session token.  Modelled from the spec: PyJWT is an
external collaborator, so the token is symbolic — it records its `iat`
and `exp` claims and the secret that signed it; the signature of a token
is valid for a verifying secret exactly when the secrets coincide. -/
structure Jwt where
  iat : Nat
  exp : Nat
  secret : String
deriving DecidableEq

/-- Outcome of `jwt.decode`. -/
inductive DecodeOutcome
  | ok
  | expiredSignature
  | invalidToken
deriving DecidableEq

/-- Symbolic `jwt.decode(token, secret, algorithms=["HS256"])`: the
signature is checked before the claims (as PyJWT does), so a token
signed with a different secret raises `InvalidTokenError` even if also
expired; a well-signed token raises `ExpiredSignatureError` when its
`exp` claim is not in the future. -/
def jwt_decode (tok : Jwt) (secret : String) (now : Nat) : DecodeOutcome :=
  if tok.secret ≠ secret then DecodeOutcome.invalidToken
  else if tok.exp ≤ now then DecodeOutcome.expiredSignature
  else DecodeOutcome.ok

/-- The `Authorization` header as seen by `require_session`: absent (or
falsy), present but not of the form `"Bearer <token>"`, or a bearer
token. -/
inductive Credential
  | absent
  | notBearer (raw : String)
  | bearer (tok : Jwt)
deriving DecidableEq

/-- A structured HTTP error (status, error type, code, message). -/
structure ErrorResp where
  status : Nat
  etype : String
  code : String
  message : String
deriving DecidableEq

/-- Dependency `require_session` (`app.py:85`): `none` means the dependency passes;
`some e` means the request is rejected with `e`. -/
def require_session (cred : Credential) (secret : String) (now : Nat) :
    Option ErrorResp :=
  match cred with
  | Credential.absent =>
      some ⟨401, "AuthenticationError", "MISSING_TOKEN",
        "Authorization header with Bearer token is required"⟩
  | Credential.notBearer _ =>
      some ⟨401, "AuthenticationError", "MISSING_TOKEN",
        "Authorization header with Bearer token is required"⟩
  | Credential.bearer tok =>
      match jwt_decode tok secret now with
      | DecodeOutcome.ok => none
      | DecodeOutcome.expiredSignature =>
          some ⟨401, "AuthenticationError", "INVALID_TOKEN",
            "Session expired, please refresh the page"⟩
      | DecodeOutcome.invalidToken =>
          some ⟨401, "AuthenticationError", "INVALID_TOKEN",
            "Invalid session token"⟩

/-! ### Session issuance (`get_session`, `app.py:239`) -/

/-- Flag `REQUIRE_NONCE = bool(os.environ.get("SESSION_SECRET"))`
(`app.py:45`): enforcement is on exactly when a session secret was
explicitly configured (present and non-empty). -/
def REQUIRE_NONCE (session_secret_env : Option String) : Bool :=
  pytruthy session_secret_env

/-- Result of `GET /api/session`: a 403 error or a signed token. -/
inductive SessionResult
  | err (e : ErrorResp)
  | token (t : Jwt)
deriving DecidableEq

/-- The 403 body raised by `get_session` on a bad nonce. -/
def invalidNonceErr : ErrorResp :=
  ⟨403, "AuthenticationError", "INVALID_NONCE",
    "Valid session nonce required. Please refresh the page."⟩

/-- Handler `get_session` (`app.py:239`): when `REQUIRE_NONCE`, the header must
be truthy and `consume_nonce` must succeed, else 403 `INVALID_NONCE`
(the short-circuit `or` means an absent/empty header never touches the
store); on success the token carries `iat = now`, `exp = now +
JWT_EXPIRY` and is signed with the session secret.  Returns the result
and the updated nonce store. -/
def get_session (requireNonce : Bool) (secret : String) (s : NonceStore)
    (x_session_nonce : Option String) (now : Nat) :
    SessionResult × NonceStore :=
  if requireNonce then
    if !pytruthy x_session_nonce then (SessionResult.err invalidNonceErr, s)
    else
      let nx := x_session_nonce.getD ""
      let r := consume_nonce s nx now
      if r.1 then (SessionResult.token ⟨now, now + JWT_EXPIRY, secret⟩, r.2)
      else (SessionResult.err invalidNonceErr, r.2)
  else (SessionResult.token ⟨now, now + JWT_EXPIRY, secret⟩, s)

/-! ### Processing-error surfacing (`analyze` except-branch, `app.py:336`) -/

/-- The `except` branch of `analyze` (`app.py:336`): substring checks on
`str(e).lower()` in order `"text"`, `"url"`, `"too long"` pick a 400
code; anything else is a 500 whose message is the constant
`"Text processing failed"` rather than `str(e)`. -/
def classify_processing_error (emsg : String) : ErrorResp :=
  if hasSub (strLower emsg) "text".data then
    ⟨400, "processing_error", "INVALID_TEXT", emsg⟩
  else if hasSub (strLower emsg) "url".data then
    ⟨400, "processing_error", "INVALID_URL", emsg⟩
  else if hasSub (strLower emsg) "too long".data then
    ⟨400, "processing_error", "TEXT_TOO_LONG", emsg⟩
  else
    ⟨500, "processing_error", "INVALID_TEXT", "Text processing failed"⟩

/-! ### Additional store lemmas for the sweep claim -/

theorem store_lookup_none_of_not_mem (s : NonceStore) (n : String)
    (h : n ∉ s.map Prod.fst) : store_lookup s n = none := by
  induction s with
  | nil => rfl
  | cons kv rest ih =>
    obtain ⟨k, v⟩ := kv
    simp only [List.map_cons, List.mem_cons] at h
    push_neg at h
    have hkn : ¬ k = n := fun he => h.1 he.symm
    simp only [store_lookup, if_neg hkn]
    exact ih h.2

/-! ## Claim theorems -/

/-- C1: single-use nonce invariant.  For any sequence of
issue/consume/sweep operations starting from the empty store, in which
the issued nonce values are pairwise distinct (issuing draws a fresh
128-bit random value), once `consume_nonce n` has returned `true`, every
later `consume_nonce n` returns `false`: a nonce value never validates
twice. -/
theorem nonce_single_use
    (pre mid : List (NonceOp × Nat)) (n : String) (t tlater : Nat)
    (hfresh : (issuedNonces (pre ++ (NonceOp.consume n, t) :: mid)).Nodup)
    (hconsumed : (consume_nonce (runOps [] pre) n t).1 = true) :
    (consume_nonce (runOps [] (pre ++ (NonceOp.consume n, t) :: mid)) n tlater).1
      = false := by
  have hmem : store_lookup (runOps [] pre) n ≠ none :=
    consume_true_mem _ _ _ hconsumed
  have hpre : n ∈ issuedNonces pre := by
    rcases store_lookup_runOps_ne_none pre [] n hmem with h0 | h
    · exact absurd rfl h0
    · exact h
  have happ : issuedNonces (pre ++ (NonceOp.consume n, t) :: mid)
      = issuedNonces pre ++ issuedNonces mid := by
    unfold issuedNonces
    rw [List.filterMap_append, List.filterMap_cons]
  rw [happ] at hfresh
  have hmid : n ∉ issuedNonces mid :=
    fun hmem2 => (List.nodup_append.mp hfresh).2.2 hpre hmem2
  rw [runOps_append]
  have hnone :
      store_lookup (runOps (runOps [] pre) ((NonceOp.consume n, t) :: mid)) n
        = none :=
    store_lookup_runOps_none mid ((consume_nonce (runOps [] pre) n t).2) n
      (store_lookup_after_consume _ _ _) hmid
  exact consume_absent_false _ _ _ hnone

/-- Witness for C1: issue "a" at time 0, consume it successfully at
time 1; a second consume at time 2 returns false. -/
theorem nonce_single_use_witness :
    ((issuedNonces ([(NonceOp.issue "a", 0)]
        ++ (NonceOp.consume "a", 1) :: [])).Nodup
      ∧ (consume_nonce (runOps [] [(NonceOp.issue "a", 0)]) "a" 1).1 = true)
    ∧ (consume_nonce (runOps []
        ([(NonceOp.issue "a", 0)] ++ (NonceOp.consume "a", 1) :: []))
        "a" 2).1 = false :=
  ⟨⟨by decide, by decide⟩,
    nonce_single_use [(NonceOp.issue "a", 0)] [] "a" 1 2 (by decide) (by decide)⟩

/-- C3: `consume_nonce` returns true iff the nonce is present in the
store with an expiry strictly after the call time (false when missing,
already consumed, or expired); in particular a nonce issued at `t0` with
TTL `NONCE_TTL` is not consumable at `t0 + NONCE_TTL + 1`. -/
theorem consume_nonce_iff_unexpired (s : NonceStore) (n : String) (now : Nat) :
    ((consume_nonce s n now).1 = true ↔
      ∃ e, store_lookup s n = some e ∧ now < e)
    ∧ ∀ t0 : Nat,
      (consume_nonce (generate_nonce s n t0) n (t0 + NONCE_TTL + 1)).1 = false := by
  constructor
  · unfold consume_nonce
    cases h : store_lookup s n with
    | none => simp [h]
    | some e => simp [h]
  · intro t0
    unfold generate_nonce consume_nonce
    rw [store_lookup_insert]
    simp

/-- C9: the sweep removes exactly the expired entries (looking up any
nonce after `cleanup_nonces` yields its old expiry when still in the
future and nothing otherwise, on a store with distinct keys, as a
Python dict has), and `GET /` runs the sweep before issuing the fresh
nonce: after `serve_index` the fresh nonce is present with expiry
`now + NONCE_TTL` and every other nonce is exactly as the sweep left
it. -/
theorem sweep_removes_exactly_expired (s : NonceStore) (now : Nat)
    (fresh n : String) (hnd : (s.map Prod.fst).Nodup) :
    (store_lookup (cleanup_nonces s now) n =
      match store_lookup s n with
      | some e => if now < e then some e else none
      | none => none)
    ∧ store_lookup (serve_index s fresh now) fresh = some (now + NONCE_TTL)
    ∧ (¬ n = fresh →
        store_lookup (serve_index s fresh now) n =
          store_lookup (cleanup_nonces s now) n) := by
  refine ⟨?_, ?_, ?_⟩
  · induction s with
    | nil => simp [cleanup_nonces, store_lookup]
    | cons kv rest ih =>
      obtain ⟨k, v⟩ := kv
      rw [List.map_cons, List.nodup_cons] at hnd
      obtain ⟨hk, hnd'⟩ := hnd
      by_cases hkn : k = n
      · subst hkn
        have hrest : store_lookup rest k = none :=
          store_lookup_none_of_not_mem rest k hk
        by_cases hv : now ≥ v
        · have : ¬ now < v := by omega
          simp [cleanup_nonces, store_lookup, hv, this,
            store_lookup_cleanup_none rest now k hrest]
        · have : now < v := by omega
          simp [cleanup_nonces, store_lookup, hv, this]
      · by_cases hv : now ≥ v
        · simp [cleanup_nonces, store_lookup, hv, hkn, ih hnd']
        · simp [cleanup_nonces, store_lookup, hv, hkn, ih hnd']
  · simp [serve_index, generate_nonce, store_lookup_insert]
  · intro h
    have hfn : ¬ fresh = n := fun he => h he.symm
    simp [serve_index, generate_nonce, store_lookup_insert, hfn]

/-- Witness for C9: a store with an expired and a live entry, swept at
time 100 while issuing fresh nonce "c". -/
theorem sweep_removes_exactly_expired_witness :
    (store_lookup (cleanup_nonces [("a", 10), ("b", 400)] 100) "a" =
      match store_lookup [("a", 10), ("b", 400)] "a" with
      | some e => if 100 < e then some e else none
      | none => none)
    ∧ store_lookup (serve_index [("a", 10), ("b", 400)] "c" 100) "c"
        = some (100 + NONCE_TTL)
    ∧ (¬ "a" = "c" →
        store_lookup (serve_index [("a", 10), ("b", 400)] "c" 100) "a" =
          store_lookup (cleanup_nonces [("a", 10), ("b", 400)] 100) "a") :=
  sweep_removes_exactly_expired [("a", 10), ("b", 400)] 100 "c" "a" (by decide)

/-- Every error message produced by `validate_text_input` is one of its
four literals. -/
theorem validate_error_msgs (body : TextInput) (msg : String)
    (h : (validate_text_input body).2 = some msg) :
    msg = "Request must contain either 'text' or 'url' field"
    ∨ msg = "Request must contain either 'text' or 'url', not both"
    ∨ msg = "Invalid URL format"
    ∨ msg = "Text content cannot be empty" := by
  unfold validate_text_input at h
  by_cases hm : (matchesAt "http://".data (body.url.getD "").data
      || matchesAt "https://".data (body.url.getD "").data) = true <;>
    by_cases hb : strBlank (body.text.getD "") = true <;>
    split_ifs at h <;> simp_all

/-- C2: for every error message produced by input validation in the
analyze endpoint, the 400 body's code (computed by
`classify_validation_error`) is `INVALID_URL` exactly for the
url-related message `"Invalid URL format"`, and `INVALID_TEXT` for all
the other messages. -/
theorem validation_error_classification (body : TextInput) (msg : String)
    (h : (validate_text_input body).2 = some msg) :
    (classify_validation_error msg = "INVALID_URL" ↔ msg = "Invalid URL format")
    ∧ (¬ msg = "Invalid URL format" →
        classify_validation_error msg = "INVALID_TEXT") := by
  rcases validate_error_msgs body msg h with h1 | h1 | h1 | h1 <;> subst h1 <;>
    exact ⟨by decide, by decide⟩

/-- Witness for C2: a bad-scheme URL produces "Invalid URL format",
classified INVALID_URL. -/
theorem validation_error_classification_witness :
    (validate_text_input ⟨none, some "ftp://x"⟩).2 = some "Invalid URL format"
    ∧ ((classify_validation_error "Invalid URL format" = "INVALID_URL" ↔
          "Invalid URL format" = "Invalid URL format")
       ∧ (¬ "Invalid URL format" = "Invalid URL format" →
          classify_validation_error "Invalid URL format" = "INVALID_TEXT")) :=
  ⟨by decide,
    validation_error_classification ⟨none, some "ftp://x"⟩ "Invalid URL format"
      (by decide)⟩

/-- C6: `validate_text_input` applies its rules in order: both fields
absent (Python-falsy) → "must contain either" error; both present →
"not both" error; a url not starting with `http://`/`https://` →
"Invalid URL format"; a text blank after stripping → "Text content
cannot be empty"; otherwise the normalized `{url}` or `{text}` request
is returned with no error. -/
theorem validate_rule_order (body : TextInput) :
    (body.text = none ∧ body.url = none →
      validate_text_input body =
        (none, some "Request must contain either 'text' or 'url' field"))
    ∧ (pytruthy body.text = true ∧ pytruthy body.url = true →
      validate_text_input body =
        (none, some "Request must contain either 'text' or 'url', not both"))
    ∧ (∀ u, body.url = some u → pytruthy body.url = true →
        pytruthy body.text = false →
        matchesAt "http://".data u.data = false →
        matchesAt "https://".data u.data = false →
        validate_text_input body = (none, some "Invalid URL format"))
    ∧ (∀ u, body.url = some u → pytruthy body.url = true →
        pytruthy body.text = false →
        (matchesAt "http://".data u.data || matchesAt "https://".data u.data)
          = true →
        validate_text_input body = (some (ReqDict.url u), none))
    ∧ (∀ t, body.text = some t → pytruthy body.text = true →
        pytruthy body.url = false → strBlank t = true →
        validate_text_input body = (none, some "Text content cannot be empty"))
    ∧ (∀ t, body.text = some t → pytruthy body.text = true →
        pytruthy body.url = false → strBlank t = false →
        validate_text_input body = (some (ReqDict.text t), none)) := by
  refine ⟨?_, ?_, ?_, ?_, ?_, ?_⟩
  · rintro ⟨h1, h2⟩
    simp [validate_text_input, h1, h2, pytruthy]
  · rintro ⟨h1, h2⟩
    simp [validate_text_input, h1, h2]
  · intro u hu h1 h2 m1 m2
    rw [hu] at h1
    simp [validate_text_input, hu, h1, h2, m1, m2]
  · intro u hu h1 h2 m
    rw [hu] at h1
    simp [validate_text_input, hu, h1, h2, m]
  · intro t ht h1 h2 hb
    rw [ht] at h1
    simp [validate_text_input, ht, h1, h2, hb]
  · intro t ht h1 h2 hb
    rw [ht] at h1
    simp [validate_text_input, ht, h1, h2, hb]

/-- Witness for C6: the empty body hits the first rule. -/
theorem validate_rule_order_witness :
    validate_text_input ⟨none, none⟩ =
      (none, some "Request must contain either 'text' or 'url' field") :=
  (validate_rule_order ⟨none, none⟩).1 ⟨rfl, rfl⟩

/-- C10: empty-string fields are treated as absent by validation:
`{text: "", url: None}` yields the "must contain either" error (not the
blank-text error); `{text: "", url: u}` with a well-formed http/https
`u` validates as a url request with no mutual-exclusivity error; and
`{text: t, url: ""}` with non-blank `t` validates as a text request. -/
theorem empty_fields_treated_absent :
    validate_text_input ⟨some "", none⟩ =
      (none, some "Request must contain either 'text' or 'url' field")
    ∧ (∀ u, (matchesAt "http://".data u.data || matchesAt "https://".data u.data)
          = true →
        validate_text_input ⟨some "", some u⟩ = (some (ReqDict.url u), none))
    ∧ (∀ t, pytruthy (some t) = true → strBlank t = false →
        validate_text_input ⟨some t, some ""⟩ = (some (ReqDict.text t), none)) := by
  refine ⟨by decide, ?_, ?_⟩
  · intro u hu
    have hptu : pytruthy (some u) = true := by
      unfold pytruthy
      cases hd : u.data with
      | nil =>
        rw [hd] at hu
        exact absurd hu (by decide)
      | cons c cs => simp [hd]
    have h0 : pytruthy (some "") = false := by decide
    simp [validate_text_input, hptu, h0, hu]
  · intro t h1 h2
    have h0 : pytruthy (some "") = false := by decide
    simp [validate_text_input, h1, h2, h0]

/-- Witness for C10: `{text: "", url: "http://x"}` validates as a url
request; `{text: "hi", url: ""}` as a text request. -/
theorem empty_fields_treated_absent_witness :
    validate_text_input ⟨some "", some "http://x"⟩ =
      (some (ReqDict.url "http://x"), none)
    ∧ validate_text_input ⟨some "hi", some ""⟩ =
      (some (ReqDict.text "hi"), none) :=
  ⟨empty_fields_treated_absent.2.1 "http://x" (by decide),
    empty_fields_treated_absent.2.2 "hi" (by decide) (by decide)⟩

/-- C7: `build_deepgram_options` maps `summarize="true"` to the boolean
`True` and `summarize="v2"` to the string `"v2"`; any other or absent
value leaves summarization off, except the legacy `"v1"` which is
rejected with its dedicated message; topics/sentiment/intents are set
(to `True`) exactly by the literal string `"true"`; and
`buildOptions(summarize="true", topics="true")` with the default
language yields `{language: "en", summarize: True, topics: True}`. -/
theorem build_options_spec (language : String)
    (summarize topics sentiment intents : Option String) :
    (summarize = some "true" →
      ∃ o, build_deepgram_options language summarize topics sentiment intents
          = (some o, none) ∧ o.summarize = some SummarizeOpt.boolTrue)
    ∧ (summarize = some "v2" →
      ∃ o, build_deepgram_options language summarize topics sentiment intents
          = (some o, none) ∧ o.summarize = some SummarizeOpt.v2)
    ∧ (summarize = some "v1" →
      build_deepgram_options language summarize topics sentiment intents =
        (none, some "Summarization v1 is no longer supported. Please use v2 or true."))
    ∧ (¬ summarize = some "true" → ¬ summarize = some "v2" →
        ¬ summarize = some "v1" →
      ∃ o, build_deepgram_options language summarize topics sentiment intents
          = (some o, none) ∧ o.summarize = none)
    ∧ (∀ o,
        (build_deepgram_options language summarize topics sentiment intents).1
          = some o →
        o.language = language
        ∧ (o.topics = some true ↔ topics = some "true")
        ∧ (o.topics = some true ∨ o.topics = none)
        ∧ (o.sentiment = some true ↔ sentiment = some "true")
        ∧ (o.sentiment = some true ∨ o.sentiment = none)
        ∧ (o.intents = some true ↔ intents = some "true")
        ∧ (o.intents = some true ∨ o.intents = none))
    ∧ build_deepgram_options "en" (some "true") (some "true") none none =
        (some ⟨"en", some SummarizeOpt.boolTrue, some true, none, none⟩, none) := by
  refine ⟨?_, ?_, ?_, ?_, ?_, by decide⟩
  · intro h; subst h
    refine ⟨⟨language, some SummarizeOpt.boolTrue,
      if topics = some "true" then some true else none,
      if sentiment = some "true" then some true else none,
      if intents = some "true" then some true else none⟩, ?_, rfl⟩
    simp [build_deepgram_options]
  · intro h; subst h
    refine ⟨⟨language, some SummarizeOpt.v2,
      if topics = some "true" then some true else none,
      if sentiment = some "true" then some true else none,
      if intents = some "true" then some true else none⟩, ?_, rfl⟩
    simp [build_deepgram_options]
  · intro h; subst h
    simp [build_deepgram_options]
  · intro h1 h2 h3
    refine ⟨⟨language, none,
      if topics = some "true" then some true else none,
      if sentiment = some "true" then some true else none,
      if intents = some "true" then some true else none⟩, ?_, rfl⟩
    simp [build_deepgram_options, h1, h2, h3]
  · intro o ho
    unfold build_deepgram_options at ho
    by_cases hv1 : summarize = some "v1"
    · simp [hv1] at ho
    · simp only [if_neg hv1] at ho
      obtain rfl := Option.some_injective _ ho
      refine ⟨rfl, ?_, ?_, ?_, ?_, ?_, ?_⟩ <;>
        · dsimp only
          split_ifs with hc <;> simp [hc]

/-- Witness for C7: the concrete example from the spec. -/
theorem build_options_spec_witness :
    build_deepgram_options "en" (some "true") (some "true") none none =
      (some ⟨"en", some SummarizeOpt.boolTrue, some true, none, none⟩, none) :=
  (build_options_spec "en" (some "true") (some "true") none none).2.2.2.2.2

/-- C4: session issuance.  With enforcement off, `GET /api/session`
issues a token unconditionally; with enforcement on (`REQUIRE_NONCE` of
an explicitly configured secret), a missing `X-Session-Nonce` header or
a failing `consume_nonce` yields the 403 `AuthenticationError` with code
`INVALID_NONCE`; on success the token has `iat = now` and
`exp = now + JWT_EXPIRY` (3600 s). -/
theorem session_issuance (env : Option String) (secret : String)
    (s : NonceStore) (x : Option String) (now : Nat) :
    (REQUIRE_NONCE env = false →
      (get_session (REQUIRE_NONCE env) secret s x now).1 =
        SessionResult.token ⟨now, now + JWT_EXPIRY, secret⟩)
    ∧ (REQUIRE_NONCE env = true → x = none →
      (get_session (REQUIRE_NONCE env) secret s x now).1 =
        SessionResult.err invalidNonceErr)
    ∧ (∀ nx, REQUIRE_NONCE env = true → x = some nx →
        pytruthy x = true → (consume_nonce s nx now).1 = false →
      (get_session (REQUIRE_NONCE env) secret s x now).1 =
        SessionResult.err invalidNonceErr)
    ∧ (∀ nx, REQUIRE_NONCE env = true → x = some nx →
        pytruthy x = true → (consume_nonce s nx now).1 = true →
      (get_session (REQUIRE_NONCE env) secret s x now).1 =
        SessionResult.token ⟨now, now + JWT_EXPIRY, secret⟩)
    ∧ invalidNonceErr.status = 403
    ∧ invalidNonceErr.etype = "AuthenticationError"
    ∧ invalidNonceErr.code = "INVALID_NONCE" := by
  refine ⟨?_, ?_, ?_, ?_, rfl, rfl, rfl⟩
  · intro h
    simp [get_session, h]
  · intro h hx
    simp [get_session, h, hx, pytruthy]
  · intro nx h hx hp hc
    rw [hx] at hp
    simp [get_session, h, hx, hp, hc]
  · intro nx h hx hp hc
    rw [hx] at hp
    simp [get_session, h, hx, hp, hc]

/-- Witness for C4: no enforcement (no configured secret) issues a
token with `iat = 5`, `exp = 3605`; enforcement with a missing header
yields the 403 INVALID_NONCE error. -/
theorem session_issuance_witness :
    (get_session (REQUIRE_NONCE none) "s" [] none 5).1 =
      SessionResult.token ⟨5, 5 + JWT_EXPIRY, "s"⟩
    ∧ (get_session (REQUIRE_NONCE (some "k")) "s" [] none 5).1 =
      SessionResult.err invalidNonceErr :=
  ⟨(session_issuance none "s" [] none 5).1 (by decide),
    (session_issuance (some "k") "s" [] none 5).2.1 (by decide) rfl⟩

/-- C5: the token verification gate.  `require_session` rejects a
request with no bearer credential with 401 `MISSING_TOKEN`; a token
signed with a different secret and an expired well-signed token are both
rejected with 401 `INVALID_TOKEN`, distinguished only by message
("Session expired, please refresh the page" vs "Invalid session token");
a well-signed unexpired token passes. -/
theorem token_verification_gate (secret raw : String) (tok : Jwt) (now : Nat) :
    require_session Credential.absent secret now =
      some ⟨401, "AuthenticationError", "MISSING_TOKEN",
        "Authorization header with Bearer token is required"⟩
    ∧ require_session (Credential.notBearer raw) secret now =
      some ⟨401, "AuthenticationError", "MISSING_TOKEN",
        "Authorization header with Bearer token is required"⟩
    ∧ (¬ tok.secret = secret →
      require_session (Credential.bearer tok) secret now =
        some ⟨401, "AuthenticationError", "INVALID_TOKEN",
          "Invalid session token"⟩)
    ∧ (tok.secret = secret → tok.exp ≤ now →
      require_session (Credential.bearer tok) secret now =
        some ⟨401, "AuthenticationError", "INVALID_TOKEN",
          "Session expired, please refresh the page"⟩)
    ∧ (tok.secret = secret → now < tok.exp →
      require_session (Credential.bearer tok) secret now = none) := by
  refine ⟨rfl, rfl, ?_, ?_, ?_⟩
  · intro h
    simp [require_session, jwt_decode, h]
  · intro h he
    simp [require_session, jwt_decode, h, he]
  · intro h hlt
    have hn : ¬ tok.exp ≤ now := by omega
    simp [require_session, jwt_decode, h, hn]

/-- Witness for C5: a token signed with another secret is rejected as
invalid; the same token well-signed and unexpired passes. -/
theorem token_verification_gate_witness :
    require_session (Credential.bearer ⟨0, 3600, "other"⟩) "s" 10 =
      some ⟨401, "AuthenticationError", "INVALID_TOKEN",
        "Invalid session token"⟩
    ∧ require_session (Credential.bearer ⟨0, 3600, "s"⟩) "s" 10 = none :=
  ⟨(token_verification_gate "s" "x" ⟨0, 3600, "other"⟩ 10).2.2.1 (by decide),
    (token_verification_gate "s" "x" ⟨0, 3600, "s"⟩ 10).2.2.2.2 rfl (by decide)⟩

/-- C8: processing-error surfacing.  An exception whose message (lowered)
contains `"text"`, `"url"` or `"too long"` is surfaced as a 400 with the
corresponding code (checked in that order) and the original message; any
other exception becomes a 500 whose message is the constant
`"Text processing failed"`, never the raw exception text. -/
theorem processing_error_surfacing (emsg : String) :
    (hasSub (strLower emsg) "text".data = true →
      classify_processing_error emsg =
        ⟨400, "processing_error", "INVALID_TEXT", emsg⟩)
    ∧ (hasSub (strLower emsg) "text".data = false →
        hasSub (strLower emsg) "url".data = true →
      classify_processing_error emsg =
        ⟨400, "processing_error", "INVALID_URL", emsg⟩)
    ∧ (hasSub (strLower emsg) "text".data = false →
        hasSub (strLower emsg) "url".data = false →
        hasSub (strLower emsg) "too long".data = true →
      classify_processing_error emsg =
        ⟨400, "processing_error", "TEXT_TOO_LONG", emsg⟩)
    ∧ (hasSub (strLower emsg) "text".data = false →
        hasSub (strLower emsg) "url".data = false →
        hasSub (strLower emsg) "too long".data = false →
      classify_processing_error emsg =
        ⟨500, "processing_error", "INVALID_TEXT", "Text processing failed"⟩)
    ∧ ((classify_processing_error emsg).status = 500 →
      (classify_processing_error emsg).message = "Text processing failed"
      ∧ ¬ (classify_processing_error emsg).message = emsg) := by
  refine ⟨?_, ?_, ?_, ?_, ?_⟩
  · intro h1
    simp [classify_processing_error, h1]
  · intro h1 h2
    simp [classify_processing_error, h1, h2]
  · intro h1 h2 h3
    simp [classify_processing_error, h1, h2, h3]
  · intro h1 h2 h3
    simp [classify_processing_error, h1, h2, h3]
  · intro h500
    unfold classify_processing_error at h500 ⊢
    split_ifs at h500 ⊢ with h1 h2 h3
    · simp at h500
    · simp at h500
    · simp at h500
    · refine ⟨rfl, fun he => ?_⟩
      rw [← he] at h1
      exact absurd h1 (by decide)

/-- Witness for C8: an unrecognized exception message is surfaced as a
generic 500. -/
theorem processing_error_surfacing_witness :
    classify_processing_error "boom" =
      ⟨500, "processing_error", "INVALID_TEXT", "Text processing failed"⟩ :=
  (processing_error_surfacing "boom").2.2.2.1 (by decide) (by decide) (by decide)

end App
